import Mathlib

/-!
Verification of the Flask backend in `backend/app.py` of the
iot_animal_detection repository.

The backend is a stateless HTTP relay with four handlers (`predict`,
`save_history`, `save_detection`, `health`) plus a helper
(`background_storage`).  We embed each handler as a pure Lean function:

* JSON scalar values are modelled by `PyVal`; Python truthiness by
  `pyTruthy`.  Python floats are modelled by exact rationals `ℚ`.
* The outcome of the single outbound model call is an explicit input
  (`ModelOutcome`), and the outcomes of the supabase storage calls are an
  explicit environment (`StorageEnv`).
* Every storage side effect (upload, get_public_url, insert — and the
  update/delete operations the supabase client also offers but this code
  never calls) is recorded in an event trace `List StorageEvent`, in the
  order the code performs them.
* An HTTP response is `Resp`: the JSON body as an association list in the
  order `jsonify` receives the keys, plus the status code.
-/

set_option autoImplicit false

/-- A Python / JSON scalar value, as handled by the backend. -/
inductive PyVal where
  | null
  | bool (b : Bool)
  | num (q : ℚ)
  | str (s : String)
  deriving DecidableEq, Repr

/-- Python truthiness on `PyVal`: `None`, `False`, `0` and `""` are falsy. -/
def pyTruthy : PyVal → Bool
  | .null => false
  | .bool b => b
  | .num q => q != 0
  | .str s => s != ""

/-- Truthiness of a `dict.get` result: a missing key (`None`) is falsy. -/
def truthyOpt : Option PyVal → Bool
  | none => false
  | some v => pyTruthy v

/-- Truthiness of a `request.form.get` result (a string or `None`). -/
def truthyStrOpt : Option String → Bool
  | none => false
  | some s => s != ""

/-- Numeric value of a list of decimal digit characters, most significant
first (helper for the model of the Python `float` builtin). -/
def digitsToNat (l : List Char) : ℕ :=
  l.foldl (fun a c => a * 10 + (c.toNat - 48)) 0

/-- Parses an unsigned decimal literal `digits [. digits]`, `.digits` or
`digits.` (at least one digit overall), as Python `float` accepts. -/
def parseUnsigned (l : List Char) : Option ℚ :=
  let ip := l.takeWhile Char.isDigit
  match l.dropWhile Char.isDigit with
  | [] => if ip.isEmpty then none else some (digitsToNat ip : ℚ)
  | c :: frac =>
    if c == '.' && frac.all Char.isDigit && !(ip.isEmpty && frac.isEmpty) then
      some ((digitsToNat ip : ℚ) + (digitsToNat frac : ℚ) / ((10 : ℚ) ^ frac.length))
    else
      none

/-- Model of the Python `float(string)` conversion on plain signed decimal
literals (the shapes relevant here; exponents and `inf`/`nan` are outside
the behaviour any claim touches). `none` means `float` raises. -/
def parseDecimal (s : String) : Option ℚ :=
  match s.data with
  | '-' :: rest => (parseUnsigned rest).map Neg.neg
  | '+' :: rest => parseUnsigned rest
  | l => parseUnsigned l

/-- Model of the Python `float(x)` builtin on a `PyVal`: numbers pass
through unchanged, booleans become 0/1, decimal strings are parsed, and
`None` or an unparseable string raises (`Except.error` carries the
message the handler would expose via `str(e)`). -/
def pyFloat : PyVal → Except String ℚ
  | .num q => .ok q
  | .bool b => .ok (if b then 1 else 0)
  | .str s =>
    match parseDecimal s with
    | some q => .ok q
    | none => .error ("could not convert string to float: " ++ s)
  | .null => .error "float() argument must be a string or a real number, not NoneType"

/-- `d.get(k)` on a JSON object modelled as an association list. -/
def dictGet (d : List (String × PyVal)) (k : String) : Option PyVal :=
  (d.find? (fun p => p.1 == k)).map (fun p => p.2)

/-- `d.get(k, default)` on a JSON object. -/
def dictGetD (d : List (String × PyVal)) (k : String) (v : PyVal) : PyVal :=
  (dictGet d k).getD v

/-- An uploaded multipart file: `file.filename`, `file.read()` (bytes) and
`file.mimetype`. -/
structure UploadedFile where
  filename : String
  content : List ℕ
  mimetype : String
  deriving DecidableEq, Repr

/-- An HTTP response: the `jsonify` body (keys in the order the code lists
them) and the status code. -/
structure Resp where
  body : List (String × PyVal)
  code : ℕ
  deriving DecidableEq, Repr

/-- One supabase side effect performed by a handler, recorded in program
order.  `update` and `delete` are operations the supabase client offers;
they appear here so that their absence from every trace is a statement
about the code, not about the event type. -/
inductive StorageEvent where
  | upload (bucket : String) (filename : String) (content : List ℕ) (mimetype : String)
  | getPublicUrl (bucket : String) (filename : String)
  | insert (table : String) (record : List (String × PyVal))
  | update (table : String) (record : List (String × PyVal))
  | delete (table : String)
  deriving DecidableEq, Repr

/-- Outcome of the single `requests.post(MODEL_URL, ...)` call in
`predict`: the request or `raise_for_status()` raised, `response.json()`
raised, or a JSON object body was obtained. -/
inductive ModelOutcome where
  | httpError (msg : String)
  | jsonError (msg : String)
  | ok (body : List (String × PyVal))
  deriving DecidableEq, Repr

/-- Outcomes of the (at most one each) supabase storage calls a handler
makes: whether the upload raises, the public URL `get_public_url`
returns, and whether the insert `execute()` raises. -/
structure StorageEnv where
  uploadError : Option String
  publicUrl : String
  insertError : Option String
  deriving DecidableEq, Repr

/-- Shorthand for the `jsonify({"error": msg}), code` responses. -/
def errResp (msg : String) (code : ℕ) : Resp :=
  ⟨[("error", .str msg)], code⟩

/-- The `/predict` handler (`predict` in app.py).  Input: the multipart
files of the request and the outcome of the model call.  Output: the
response and the trace of storage side effects performed. -/
def predict (files : List (String × UploadedFile)) (m : ModelOutcome) :
    Resp × List StorageEvent :=
  match files.lookup "image" with
  | none => (errResp "No image uploaded" 400, [])
  | some _file =>
    match m with
    | .httpError msg => (errResp msg 500, [])
    | .jsonError msg => (errResp msg 500, [])
    | .ok body =>
      let animal := dictGetD body "label" (.str "Unknown")
      match pyFloat (dictGetD body "confidence" (.num 0)) with
      | .error msg => (errResp msg 500, [])
      | .ok c =>
        (⟨[("status", .str "success"), ("animal", animal),
           ("confidence", .num (c * 100))], 200⟩, [])

/-- The `/save-history` handler (`save_history` in app.py).  Input: the
parsed JSON body (`none` when `request.json` is absent/null) and the
storage environment. -/
def save_history (data : Option (List (String × PyVal))) (env : StorageEnv) :
    Resp × List StorageEvent :=
  match data with
  | none => (errResp "No JSON data provided" 400, [])
  | some d =>
    if d.isEmpty then (errResp "No JSON data provided" 400, [])
    else
      let image_url := dictGet d "image_url"
      let animal := dictGet d "animal"
      let confidence := dictGet d "confidence"
      let user_id := dictGet d "user_id"
      if truthyOpt image_url && truthyOpt animal &&
          truthyOpt confidence && truthyOpt user_id then
        match pyFloat (confidence.getD .null) with
        | .error msg => (errResp msg 500, [])
        | .ok c =>
          let record : List (String × PyVal) :=
            [("labeled_image_url", image_url.getD .null),
             ("animal_detected", animal.getD .null),
             ("confidence_score", .num c),
             ("user_id", user_id.getD .null)]
          match env.insertError with
          | some msg => (errResp msg 500, [.insert "labeled_images" record])
          | none => (⟨[("status", .str "saved")], 200⟩, [.insert "labeled_images" record])
      else
        (errResp "Missing required data (image_url, animal, confidence, or user_id)" 400, [])

/-- The `/save-detection` handler (`save_detection` in app.py).  Input:
the value of `int(time.time())`, the multipart files and form fields of
the request, and the storage environment. -/
def save_detection (ts : ℕ) (files : List (String × UploadedFile))
    (form : List (String × String)) (env : StorageEnv) :
    Resp × List StorageEvent :=
  match files.lookup "image" with
  | none => (errResp "No image uploaded" 400, [])
  | some file =>
    let animal := form.lookup "animal"
    let confidence := form.lookup "confidence"
    let user_id := form.lookup "user_id"
    if truthyStrOpt animal && truthyStrOpt confidence && truthyStrOpt user_id then
      let bucket := "captured-images"
      let filename := toString ts ++ "_" ++ file.filename
      match env.uploadError with
      | some msg =>
        (errResp msg 500, [.upload bucket filename file.content file.mimetype])
      | none =>
        let public_url := env.publicUrl
        let evs := [StorageEvent.upload bucket filename file.content file.mimetype,
                    StorageEvent.getPublicUrl bucket filename]
        match pyFloat (.str (confidence.getD "")) with
        | .error msg => (errResp msg 500, evs)
        | .ok c =>
          let db_data : List (String × PyVal) :=
            [("labeled_image_url", .str public_url),
             ("animal_detected", .str (animal.getD "")),
             ("confidence_score", .num c),
             ("user_id", .str (user_id.getD ""))]
          match env.insertError with
          | some msg => (errResp msg 500, evs ++ [.insert "labeled_images" db_data])
          | none =>
            (⟨[("status", .str "success"),
               ("message", .str "Detection saved to history")], 200⟩,
             evs ++ [.insert "labeled_images" db_data])
    else
      (errResp "Missing required data (animal, confidence, or user_id)" 400, [])

/-- String form of a `PyVal` as `print` would show it (used only in the
background task log messages). -/
def pyToString : PyVal → String
  | .null => "None"
  | .bool b => if b then "True" else "False"
  | .num q => toString q
  | .str s => s

/-- The `background_storage` helper in app.py.  It has no caller-visible
result at all: it returns only its storage-event trace and the lines it
prints (an error is printed and swallowed).  In the current code no
handler invokes it. -/
def background_storage (image_bytes : List ℕ) (filename : String) (mimetype : String)
    (animal : PyVal) (confidence : PyVal) (user_id : PyVal) (env : StorageEnv) :
    List StorageEvent × List String :=
  let bucket := "labeled-images"
  match env.uploadError with
  | some msg =>
    ([.upload bucket filename image_bytes mimetype],
     ["Background storage error: " ++ msg])
  | none =>
    let public_url := env.publicUrl
    let evs := [StorageEvent.upload bucket filename image_bytes mimetype,
                StorageEvent.getPublicUrl bucket filename]
    let data : List (String × PyVal) :=
      [("labeled_image_url", .str public_url),
       ("animal_detected", animal),
       ("confidence_score", confidence),
       ("user_id", user_id)]
    match env.insertError with
    | some msg =>
      (evs ++ [.insert "labeled_images" data],
       ["Background storage error: " ++ msg])
    | none =>
      (evs ++ [.insert "labeled_images" data],
       ["Stored detection: " ++ pyToString animal])

/-- The `/health` handler (`health` in app.py): a closed constant — it
reads no request data and no state, performs no storage effect. -/
def health : Resp × List StorageEvent :=
  (⟨[("status", .str "healthy")], 200⟩, [])

/-! ## Spec-side predicates (stated from the specification, for comparison) -/

/-- Spec-side predicate, from the claim that a predict success body is a
complete result with confidence in the range 0–100 and a non-empty label. -/
def specWellFormedSuccess (r : Resp) : Bool :=
  match r.body with
  | [("status", .str "success"), ("animal", .str a), ("confidence", .num c)] =>
    r.code == 200 && a != "" && decide (0 ≤ c) && decide (c ≤ 100)
  | _ => false

/-- Spec-side predicate: the body is exactly the error envelope shape. -/
def specErrorEnvelope (r : Resp) : Bool :=
  match r.body with
  | [("error", .str _)] => true
  | _ => false

/-- Spec-side predicate: the body is the complete three-field success
shape (status, animal, confidence) with status code 200, with no
constraint on the label or confidence values. -/
def specCompleteSuccess (r : Resp) : Bool :=
  match r.body with
  | [("status", .str "success"), ("animal", _), ("confidence", .num _)] => r.code == 200
  | _ => false

/-- A storage event conforming to the stored-record discipline of the
code: inserts go to the single table `labeled_images` with exactly the
columns `labeled_image_url`, `animal_detected`, `confidence_score`,
`user_id`; uploads and public-URL reads are unrestricted; updates and
deletes never happen. -/
def insertShapeOK : StorageEvent → Bool
  | .insert t r =>
    t == "labeled_images" &&
      r.map Prod.fst == ["labeled_image_url", "animal_detected", "confidence_score", "user_id"]
  | .update _ _ => false
  | .delete _ => false
  | .upload _ _ _ _ => true
  | .getPublicUrl _ _ => true

/-! ## Claims -/

/-- C9: every call to GET /health returns the fixed payload
`{status: "healthy"}` with HTTP 200 and no side effects, however many
times it is called; the handler is a closed constant, independent of any
state. -/
theorem c9_health_constant :
    health = (⟨[("status", PyVal.str "healthy")], 200⟩, ([] : List StorageEvent)) ∧
    ∀ n : ℕ, List.replicate n health =
      List.replicate n ((⟨[("status", PyVal.str "healthy")], 200⟩ : Resp),
        ([] : List StorageEvent)) :=
  ⟨rfl, fun _ => rfl⟩

/-- C1 (counterexample): a /predict request whose model call succeeds —
the response is a 200 success — performs no storage side effect at all:
no background task, no upload, no insert.  This refutes the claim that
the handler launches a detached background task that uploads the image
and inserts a record. -/
theorem c1_counterexample :
    (predict [("image", ⟨"a.jpg", [1], "image/png"⟩)]
      (.ok [("label", PyVal.str "dog"), ("confidence", PyVal.num (1/2))])).1.code = 200 ∧
    (predict [("image", ⟨"a.jpg", [1], "image/png"⟩)]
      (.ok [("label", PyVal.str "dog"), ("confidence", PyVal.num (1/2))])).2 = [] := by
  decide

/-- C1 (amended): the /predict handler never performs any storage side
effect and never launches a background task, whatever the request and
whatever the model call outcome; it only returns the model result.  (The
`background_storage` helper, which would upload the image and insert a
record and whose errors are printed and swallowed, exists in the file but
is not invoked by the /predict handler.) -/
theorem c1_amended (files : List (String × UploadedFile)) (m : ModelOutcome) :
    (predict files m).2 = [] := by
  cases h : files.lookup "image" with
  | none => simp [predict, h]
  | some f =>
    cases m with
    | httpError msg => simp [predict, h]
    | jsonError msg => simp [predict, h]
    | ok body =>
      cases hf : pyFloat (dictGetD body "confidence" (.num 0)) with
      | error msg => simp [predict, h, hf]
      | ok c => simp [predict, h, hf]

/-- C2: when the model call of /predict yields a JSON object and the
confidence field (default 0) converts to a float `c`, the handler returns
the success body `{status, animal, confidence}` with confidence `c * 100`
and animal the label field defaulted to "Unknown"; a missing label gives
literally "Unknown" and a missing confidence gives `c = 0`. -/
theorem c2_predict_scaling (files : List (String × UploadedFile))
    (f : UploadedFile) (body : List (String × PyVal)) (c : ℚ)
    (himg : files.lookup "image" = some f)
    (hc : pyFloat (dictGetD body "confidence" (.num 0)) = .ok c) :
    predict files (.ok body) =
      (⟨[("status", .str "success"),
         ("animal", dictGetD body "label" (.str "Unknown")),
         ("confidence", .num (c * 100))], 200⟩, []) ∧
    (dictGet body "label" = none → dictGetD body "label" (.str "Unknown") = .str "Unknown") ∧
    (dictGet body "confidence" = none → c = 0) := by
  refine ⟨by simp [predict, himg, hc], fun h => by simp [dictGetD, h], fun h => ?_⟩
  rw [dictGetD, h] at hc
  simp [pyFloat] at hc
  exact hc.symm

/-- C2 (witness): the spec scenario — model output
`{label: "fox", confidence: 0.87}` yields animal "fox" and confidence 87. -/
theorem c2_witness :
    predict [("image", ⟨"fox.jpg", [2], "image/jpeg"⟩)]
      (.ok [("label", PyVal.str "fox"), ("confidence", PyVal.num (87/100))]) =
      (⟨[("status", .str "success"), ("animal", .str "fox"),
         ("confidence", .num 87)], 200⟩, []) := by
  have h := (c2_predict_scaling [("image", ⟨"fox.jpg", [2], "image/jpeg"⟩)]
    ⟨"fox.jpg", [2], "image/jpeg"⟩
    [("label", PyVal.str "fox"), ("confidence", PyVal.num (87/100))]
    (87/100) (by decide) (by rfl)).1
  rw [h]
  norm_num [dictGetD, dictGet]

/-- C3: a /save-detection call missing any of the form fields animal,
confidence, user_id, and a /save-history call whose JSON body is missing
any of image_url, animal, confidence, user_id, both return HTTP 400 and
perform no storage upload and no database insert. -/
theorem c3_missing_required_400 :
    (∀ (d : List (String × PyVal)) (env : StorageEnv),
      (dictGet d "image_url" = none ∨ dictGet d "animal" = none ∨
       dictGet d "confidence" = none ∨ dictGet d "user_id" = none) →
      (save_history (some d) env).1.code = 400 ∧ (save_history (some d) env).2 = []) ∧
    (∀ (ts : ℕ) (files : List (String × UploadedFile))
       (form : List (String × String)) (env : StorageEnv),
      (form.lookup "animal" = none ∨ form.lookup "confidence" = none ∨
       form.lookup "user_id" = none) →
      (save_detection ts files form env).1.code = 400 ∧
      (save_detection ts files form env).2 = []) := by
  constructor
  · intro d env h
    by_cases hd : d.isEmpty
    · simp [save_history, hd, errResp]
    · have hfalse : (truthyOpt (dictGet d "image_url") && truthyOpt (dictGet d "animal") &&
          truthyOpt (dictGet d "confidence") && truthyOpt (dictGet d "user_id")) = false := by
        rcases h with h | h | h | h <;> simp [h, truthyOpt]
      simp [save_history, hd, hfalse, errResp]
  · intro ts files form env h
    cases himg : files.lookup "image" with
    | none => simp [save_detection, himg, errResp]
    | some f =>
      have hfalse : (truthyStrOpt (form.lookup "animal") &&
          truthyStrOpt (form.lookup "confidence") &&
          truthyStrOpt (form.lookup "user_id")) = false := by
        rcases h with h | h | h <;> simp [h, truthyStrOpt]
      simp [save_detection, himg, hfalse, errResp]

/-- C3 (witness): concrete calls with a missing field are rejected with
400 and an empty effect trace. -/
theorem c3_witness :
    ((save_history (some [("animal", PyVal.str "dog")]) ⟨none, "u", none⟩).1.code = 400 ∧
     (save_history (some [("animal", PyVal.str "dog")]) ⟨none, "u", none⟩).2 = []) ∧
    ((save_detection 7 [("image", ⟨"c3.jpg", [3], "image/png"⟩)]
        [("animal", "cat")] ⟨none, "u", none⟩).1.code = 400 ∧
     (save_detection 7 [("image", ⟨"c3.jpg", [3], "image/png"⟩)]
        [("animal", "cat")] ⟨none, "u", none⟩).2 = []) :=
  ⟨c3_missing_required_400.1 [("animal", PyVal.str "dog")] ⟨none, "u", none⟩
     (Or.inl (by decide)),
   c3_missing_required_400.2 7 [("image", ⟨"c3.jpg", [3], "image/png"⟩)]
     [("animal", "cat")] ⟨none, "u", none⟩ (Or.inr (Or.inl (by decide)))⟩

/-- C10: a required field that is present but falsy under Python
truthiness — for the JSON endpoint any falsy value such as the number 0
or the empty string, for the multipart endpoint the empty string — is
treated exactly like a missing field: the handler returns 400 and
performs no upload and no insert. -/
theorem c10_falsy_rejected :
    (∀ (d : List (String × PyVal)) (env : StorageEnv) (k : String) (v : PyVal),
      (k = "image_url" ∨ k = "animal" ∨ k = "confidence" ∨ k = "user_id") →
      dictGet d k = some v → pyTruthy v = false →
      (save_history (some d) env).1.code = 400 ∧ (save_history (some d) env).2 = []) ∧
    (∀ (ts : ℕ) (files : List (String × UploadedFile))
       (form : List (String × String)) (env : StorageEnv) (k : String),
      (k = "animal" ∨ k = "confidence" ∨ k = "user_id") →
      form.lookup k = some "" →
      (save_detection ts files form env).1.code = 400 ∧
      (save_detection ts files form env).2 = []) := by
  constructor
  · intro d env k v hk hget hfalsy
    by_cases hd : d.isEmpty
    · simp [save_history, hd, errResp]
    · have hfalse : (truthyOpt (dictGet d "image_url") && truthyOpt (dictGet d "animal") &&
          truthyOpt (dictGet d "confidence") && truthyOpt (dictGet d "user_id")) = false := by
        rcases hk with h | h | h | h <;> subst h <;> simp [hget, truthyOpt, hfalsy]
      simp [save_history, hd, hfalse, errResp]
  · intro ts files form env k hk hget
    cases himg : files.lookup "image" with
    | none => simp [save_detection, himg, errResp]
    | some f =>
      have hfalse : (truthyStrOpt (form.lookup "animal") &&
          truthyStrOpt (form.lookup "confidence") &&
          truthyStrOpt (form.lookup "user_id")) = false := by
        rcases hk with h | h | h <;> subst h <;> simp [hget, truthyStrOpt]
      simp [save_detection, himg, hfalse, errResp]

/-- C10 (witness): confidence present but equal to 0 in the JSON body,
and a present-but-empty form field, are both rejected with 400 and no
side effects. -/
theorem c10_witness :
    ((save_history (some [("image_url", PyVal.str "u"), ("animal", PyVal.str "dog"),
        ("confidence", PyVal.num 0), ("user_id", PyVal.str "u1")]) ⟨none, "p", none⟩).1.code = 400 ∧
     (save_history (some [("image_url", PyVal.str "u"), ("animal", PyVal.str "dog"),
        ("confidence", PyVal.num 0), ("user_id", PyVal.str "u1")]) ⟨none, "p", none⟩).2 = []) ∧
    ((save_detection 9 [("image", ⟨"c10.jpg", [4], "image/png"⟩)]
        [("animal", ""), ("confidence", "0.5"), ("user_id", "u1")] ⟨none, "p", none⟩).1.code = 400 ∧
     (save_detection 9 [("image", ⟨"c10.jpg", [4], "image/png"⟩)]
        [("animal", ""), ("confidence", "0.5"), ("user_id", "u1")] ⟨none, "p", none⟩).2 = []) :=
  ⟨c10_falsy_rejected.1 [("image_url", PyVal.str "u"), ("animal", PyVal.str "dog"),
      ("confidence", PyVal.num 0), ("user_id", PyVal.str "u1")] ⟨none, "p", none⟩
      "confidence" (PyVal.num 0) (Or.inr (Or.inr (Or.inl rfl))) (by decide) (by decide),
   c10_falsy_rejected.2 9 [("image", ⟨"c10.jpg", [4], "image/png"⟩)]
      [("animal", ""), ("confidence", "0.5"), ("user_id", "u1")] ⟨none, "p", none⟩
      "animal" (Or.inl rfl) (by decide)⟩

/-- C8: a /save-history call with all four fields present and truthy and
a confidence convertible to float, when the insert succeeds, inserts
exactly one record — with confidence_score the converted value unscaled —
performs no storage upload, and returns `{status: "saved"}` with 200. -/
theorem c8_save_history_success (d : List (String × PyVal)) (env : StorageEnv)
    (u a cv uid : PyVal) (c : ℚ)
    (hu : dictGet d "image_url" = some u) (ha : dictGet d "animal" = some a)
    (hc : dictGet d "confidence" = some cv) (hid : dictGet d "user_id" = some uid)
    (htu : pyTruthy u = true) (hta : pyTruthy a = true)
    (htc : pyTruthy cv = true) (htid : pyTruthy uid = true)
    (hf : pyFloat cv = .ok c) (hins : env.insertError = none) :
    save_history (some d) env =
      (⟨[("status", .str "saved")], 200⟩,
       [.insert "labeled_images"
         [("labeled_image_url", u), ("animal_detected", a),
          ("confidence_score", .num c), ("user_id", uid)]]) := by
  have hd : d.isEmpty = false := by
    cases d with
    | nil => simp [dictGet] at hu
    | cons p l => rfl
  simp [save_history, hd, hu, ha, hc, hid, truthyOpt, htu, hta, htc, htid, hf, hins]

/-- C8 (witness): the spec scenario — body
`{image_url: "http://x/y.jpg", animal: "dog", confidence: 0.91,
user_id: "u1"}` inserts one row with confidence_score 0.91 and answers
`{status: "saved"}`. -/
theorem c8_witness :
    save_history (some [("image_url", PyVal.str "http://x/y.jpg"),
        ("animal", PyVal.str "dog"), ("confidence", PyVal.num (91/100)),
        ("user_id", PyVal.str "u1")]) ⟨none, "p", none⟩ =
      (⟨[("status", .str "saved")], 200⟩,
       [.insert "labeled_images"
         [("labeled_image_url", .str "http://x/y.jpg"),
          ("animal_detected", .str "dog"),
          ("confidence_score", .num (91/100)),
          ("user_id", .str "u1")]]) :=
  c8_save_history_success [("image_url", PyVal.str "http://x/y.jpg"),
      ("animal", PyVal.str "dog"), ("confidence", PyVal.num (91/100)),
      ("user_id", PyVal.str "u1")] ⟨none, "p", none⟩
    (.str "http://x/y.jpg") (.str "dog") (.num (91/100)) (.str "u1") (91/100)
    (by rfl) (by rfl) (by rfl) (by rfl)
    (by decide) (by decide) (by norm_num [pyTruthy]) (by decide) (by rfl) rfl

/-- C4 (counterexample): with a valid image upload, a model body of
`{label: "", confidence: 2}` makes /predict answer 200 with animal `""`
(empty label) and confidence 200 (outside 0–100); the response is neither
a well-formed result in the claimed sense nor an error envelope, because
the code never clamps the confidence nor checks the label. -/
theorem c4_counterexample :
    specWellFormedSuccess (predict [("image", ⟨"e.jpg", [6], "image/png"⟩)]
      (.ok [("label", PyVal.str ""), ("confidence", PyVal.num 2)])).1 = false ∧
    specErrorEnvelope (predict [("image", ⟨"e.jpg", [6], "image/png"⟩)]
      (.ok [("label", PyVal.str ""), ("confidence", PyVal.num 2)])).1 = false ∧
    (predict [("image", ⟨"e.jpg", [6], "image/png"⟩)]
      (.ok [("label", PyVal.str ""), ("confidence", PyVal.num 2)])).1.code = 200 :=
  ⟨rfl, rfl, rfl⟩

/-- C4 (amended): every /predict response is either the complete
three-field success body with code 200 or the error envelope — never a
partial or malformed body; and whenever the model's raw confidence
(default 0) converts to a float in [0,1], the success confidence is that
value times 100, lying in [0,100], and the animal field is the model's
label defaulted to "Unknown" (so it is non-empty whenever that value is). -/
theorem c4_amended :
    (∀ (files : List (String × UploadedFile)) (m : ModelOutcome),
      specCompleteSuccess (predict files m).1 = true ∨
      specErrorEnvelope (predict files m).1 = true) ∧
    (∀ (files : List (String × UploadedFile)) (f : UploadedFile)
       (body : List (String × PyVal)) (c : ℚ),
      files.lookup "image" = some f →
      pyFloat (dictGetD body "confidence" (.num 0)) = .ok c →
      0 ≤ c → c ≤ 1 →
      (predict files (.ok body)).1 =
        ⟨[("status", .str "success"),
          ("animal", dictGetD body "label" (.str "Unknown")),
          ("confidence", .num (c * 100))], 200⟩ ∧
      0 ≤ c * 100 ∧ c * 100 ≤ 100) := by
  constructor
  · intro files m
    cases h : files.lookup "image" with
    | none => exact Or.inr (by simp [predict, h, errResp, specErrorEnvelope])
    | some f =>
      cases m with
      | httpError msg => exact Or.inr (by simp [predict, h, errResp, specErrorEnvelope])
      | jsonError msg => exact Or.inr (by simp [predict, h, errResp, specErrorEnvelope])
      | ok body =>
        cases hf : pyFloat (dictGetD body "confidence" (.num 0)) with
        | error msg => exact Or.inr (by simp [predict, h, hf, errResp, specErrorEnvelope])
        | ok c => exact Or.inl (by simp [predict, h, hf, specCompleteSuccess])
  · intro files f body c himg hf h0 h1
    refine ⟨by simp [predict, himg, hf], mul_nonneg h0 (by norm_num), by linarith⟩

/-- C4 (witness): both parts at concrete inputs — an arbitrary request is
complete-or-error, and a model confidence of 0.5 yields confidence 50,
inside [0,100]. -/
theorem c4_witness :
    (specCompleteSuccess (predict [] (.ok [])).1 = true ∨
     specErrorEnvelope (predict [] (.ok [])).1 = true) ∧
    ((predict [("image", ⟨"cat.jpg", [5], "image/png"⟩)]
        (.ok [("label", PyVal.str "cat"), ("confidence", PyVal.num (1/2))])).1 =
      ⟨[("status", .str "success"),
        ("animal", dictGetD [("label", PyVal.str "cat"), ("confidence", PyVal.num (1/2))]
          "label" (.str "Unknown")),
        ("confidence", .num ((1/2) * 100))], 200⟩ ∧
     0 ≤ (1/2 : ℚ) * 100 ∧ (1/2 : ℚ) * 100 ≤ 100) :=
  ⟨c4_amended.1 [] (.ok []),
   c4_amended.2 [("image", ⟨"cat.jpg", [5], "image/png"⟩)] ⟨"cat.jpg", [5], "image/png"⟩
     [("label", PyVal.str "cat"), ("confidence", PyVal.num (1/2))] (1/2)
     (by rfl) (by rfl) (by norm_num) (by norm_num)⟩

/-- C5 (counterexample): a successful save (here /save-history, HTTP 200)
inserts a record whose column list is `labeled_image_url`,
`animal_detected`, `confidence_score`, `user_id` — it does not contain an
`image_url` column, so the columns do not match the claimed shape
`{image_url, animal_detected, confidence_score, user_id}`. -/
theorem c5_counterexample :
    (save_history (some [("image_url", PyVal.str "http://x/a.jpg"),
        ("animal", PyVal.str "cat"), ("confidence", PyVal.num 1),
        ("user_id", PyVal.str "u2")]) ⟨none, "p", none⟩).1.code = 200 ∧
    (save_history (some [("image_url", PyVal.str "http://x/a.jpg"),
        ("animal", PyVal.str "cat"), ("confidence", PyVal.num 1),
        ("user_id", PyVal.str "u2")]) ⟨none, "p", none⟩).2 =
      [.insert "labeled_images"
        [("labeled_image_url", PyVal.str "http://x/a.jpg"),
         ("animal_detected", PyVal.str "cat"),
         ("confidence_score", PyVal.num 1),
         ("user_id", PyVal.str "u2")]] ∧
    [("labeled_image_url", PyVal.str "http://x/a.jpg"),
     ("animal_detected", PyVal.str "cat"),
     ("confidence_score", PyVal.num 1),
     ("user_id", PyVal.str "u2")].map Prod.fst ≠
      ["image_url", "animal_detected", "confidence_score", "user_id"] :=
  ⟨rfl, rfl, by decide⟩

/-- C5 (amended): every storage event any handler or the background task
performs is an upload, a public-URL read, or an insert into the single
table `labeled_images` whose columns are exactly `labeled_image_url`,
`animal_detected`, `confidence_score`, `user_id`; no update and no delete
is ever performed. -/
theorem c5_amended :
    (∀ (data : Option (List (String × PyVal))) (env : StorageEnv),
      ∀ e ∈ (save_history data env).2, insertShapeOK e = true) ∧
    (∀ (ts : ℕ) (files : List (String × UploadedFile))
       (form : List (String × String)) (env : StorageEnv),
      ∀ e ∈ (save_detection ts files form env).2, insertShapeOK e = true) ∧
    (∀ (bytes : List ℕ) (fn mt : String) (a c u : PyVal) (env : StorageEnv),
      ∀ e ∈ (background_storage bytes fn mt a c u env).1, insertShapeOK e = true) := by
  refine ⟨?_, ?_, ?_⟩
  · intro data env e he
    cases data with
    | none => simp [save_history] at he
    | some d =>
      by_cases hd : d.isEmpty
      · simp [save_history, hd] at he
      · by_cases ht : (truthyOpt (dictGet d "image_url") && truthyOpt (dictGet d "animal") &&
            truthyOpt (dictGet d "confidence") && truthyOpt (dictGet d "user_id")) = true
        · cases hf : pyFloat ((dictGet d "confidence").getD .null) with
          | error msg => simp [save_history, hd, ht, hf] at he
          | ok c =>
            cases hins : env.insertError with
            | some msg =>
              simp [save_history, hd, ht, hf, hins] at he
              subst he; rfl
            | none =>
              simp [save_history, hd, ht, hf, hins] at he
              subst he; rfl
        · simp [save_history, hd, eq_false_of_ne_true ht] at he
  · intro ts files form env e he
    cases himg : files.lookup "image" with
    | none => simp [save_detection, himg] at he
    | some f =>
      by_cases ht : (truthyStrOpt (form.lookup "animal") &&
          truthyStrOpt (form.lookup "confidence") &&
          truthyStrOpt (form.lookup "user_id")) = true
      · cases hup : env.uploadError with
        | some msg =>
          simp [save_detection, himg, ht, hup] at he
          subst he; rfl
        | none =>
          cases hf : pyFloat (.str ((form.lookup "confidence").getD "")) with
          | error msg =>
            simp [save_detection, himg, ht, hup, hf] at he
            rcases he with he | he <;> subst he <;> rfl
          | ok c =>
            cases hins : env.insertError with
            | some msg =>
              simp [save_detection, himg, ht, hup, hf, hins] at he
              rcases he with he | he | he <;> subst he <;> rfl
            | none =>
              simp [save_detection, himg, ht, hup, hf, hins] at he
              rcases he with he | he | he <;> subst he <;> rfl
      · simp [save_detection, himg, eq_false_of_ne_true ht] at he
  · intro bytes fn mt a c u env e he
    cases hup : env.uploadError with
    | some msg =>
      simp [background_storage, hup] at he
      subst he; rfl
    | none =>
      cases hins : env.insertError with
      | some msg =>
        simp [background_storage, hup, hins] at he
        rcases he with he | he | he <;> subst he <;> rfl
      | none =>
        simp [background_storage, hup, hins] at he
        rcases he with he | he | he <;> subst he <;> rfl

/-- C5 (witness): the insert performed by a concrete successful
background-storage run conforms to the stored-record discipline. -/
theorem c5_witness :
    insertShapeOK (StorageEvent.insert "labeled_images"
      [("labeled_image_url", PyVal.str "http://pub/f.jpg"),
       ("animal_detected", PyVal.str "dog"),
       ("confidence_score", PyVal.num 1),
       ("user_id", PyVal.null)]) = true :=
  c5_amended.2.2 [9] "f.jpg" "image/png" (PyVal.str "dog") (PyVal.num 1) PyVal.null
    ⟨none, "http://pub/f.jpg", none⟩ _
    (List.Mem.tail _ (List.Mem.tail _ (List.Mem.head _)))

/-- C6: in the two code paths that both upload an image and insert a
record — /save-detection and the background storage task — an insert only
ever happens as the third event of the exact sequence upload, then
get-public-URL, then insert, on the same bucket and filename. -/
theorem c6_insert_after_url :
    (∀ (ts : ℕ) (files : List (String × UploadedFile))
       (form : List (String × String)) (env : StorageEnv) (t : String)
       (r : List (String × PyVal)),
      StorageEvent.insert t r ∈ (save_detection ts files form env).2 →
      ∃ fn bytes mt rec,
        (save_detection ts files form env).2 =
          [.upload "captured-images" fn bytes mt,
           .getPublicUrl "captured-images" fn,
           .insert "labeled_images" rec]) ∧
    (∀ (bytes : List ℕ) (fn mt : String) (a c u : PyVal) (env : StorageEnv)
       (t : String) (r : List (String × PyVal)),
      StorageEvent.insert t r ∈ (background_storage bytes fn mt a c u env).1 →
      (background_storage bytes fn mt a c u env).1 =
        [.upload "labeled-images" fn bytes mt,
         .getPublicUrl "labeled-images" fn,
         .insert "labeled_images"
           [("labeled_image_url", .str env.publicUrl), ("animal_detected", a),
            ("confidence_score", c), ("user_id", u)]]) := by
  constructor
  · intro ts files form env t r he
    cases himg : files.lookup "image" with
    | none => simp [save_detection, himg] at he
    | some f =>
      by_cases ht : (truthyStrOpt (form.lookup "animal") &&
          truthyStrOpt (form.lookup "confidence") &&
          truthyStrOpt (form.lookup "user_id")) = true
      · cases hup : env.uploadError with
        | some msg => simp [save_detection, himg, ht, hup] at he
        | none =>
          cases hf : pyFloat (.str ((form.lookup "confidence").getD "")) with
          | error msg => simp [save_detection, himg, ht, hup, hf] at he
          | ok c =>
            refine ⟨toString ts ++ "_" ++ f.filename, f.content, f.mimetype,
              [("labeled_image_url", .str env.publicUrl),
               ("animal_detected", .str ((form.lookup "animal").getD "")),
               ("confidence_score", .num c),
               ("user_id", .str ((form.lookup "user_id").getD ""))], ?_⟩
            cases hins : env.insertError with
            | some msg => simp [save_detection, himg, ht, hup, hf, hins]
            | none => simp [save_detection, himg, ht, hup, hf, hins]
      · simp [save_detection, himg, eq_false_of_ne_true ht] at he
  · intro bytes fn mt a c u env t r he
    cases hup : env.uploadError with
    | some msg => simp [background_storage, hup] at he
    | none =>
      cases hins : env.insertError with
      | some msg => simp [background_storage, hup, hins]
      | none => simp [background_storage, hup, hins]

/-- C6 (witness): a concrete successful /save-detection run shows the
exact upload, get-public-URL, insert sequence. -/
theorem c6_witness :
    (save_detection 11 [("image", ⟨"w.jpg", [7], "image/png"⟩)]
      [("animal", "fox"), ("confidence", "1"), ("user_id", "u3")]
      ⟨none, "http://pub/w", none⟩).2 =
      [.upload "captured-images" "11_w.jpg" [7] "image/png",
       .getPublicUrl "captured-images" "11_w.jpg",
       .insert "labeled_images"
         [("labeled_image_url", .str "http://pub/w"),
          ("animal_detected", .str "fox"),
          ("confidence_score", .num 1),
          ("user_id", .str "u3")]] := by
  have h := c6_insert_after_url.1 11 [("image", ⟨"w.jpg", [7], "image/png"⟩)]
    [("animal", "fox"), ("confidence", "1"), ("user_id", "u3")]
    ⟨none, "http://pub/w", none⟩ "labeled_images"
    [("labeled_image_url", .str "http://pub/w"),
     ("animal_detected", .str "fox"),
     ("confidence_score", .num 1),
     ("user_id", .str "u3")]
    (List.Mem.tail _ (List.Mem.tail _ (List.Mem.head _)))
  exact rfl

/-- C7: client input faults (no image / no JSON body) are answered with
HTTP 400, while every exception arising inside a handler's try block —
model-call failure, storage upload or insert failure, float-conversion
failure — is answered with HTTP 500 whose error body is exactly the
exception's message. -/
theorem c7_error_mapping :
    (∀ (files : List (String × UploadedFile)) (m : ModelOutcome),
      files.lookup "image" = none →
      (predict files m).1 = errResp "No image uploaded" 400) ∧
    (∀ env, (save_history none env).1 = errResp "No JSON data provided" 400) ∧
    (∀ (ts : ℕ) (files : List (String × UploadedFile))
       (form : List (String × String)) (env : StorageEnv),
      files.lookup "image" = none →
      (save_detection ts files form env).1 = errResp "No image uploaded" 400) ∧
    (∀ (files : List (String × UploadedFile)) (f : UploadedFile) (msg : String),
      files.lookup "image" = some f →
      (predict files (.httpError msg)).1 = errResp msg 500 ∧
      (predict files (.jsonError msg)).1 = errResp msg 500) ∧
    (∀ (files : List (String × UploadedFile)) (f : UploadedFile)
       (body : List (String × PyVal)) (msg : String),
      files.lookup "image" = some f →
      pyFloat (dictGetD body "confidence" (.num 0)) = .error msg →
      (predict files (.ok body)).1 = errResp msg 500) ∧
    (∀ (d : List (String × PyVal)) (env : StorageEnv) (msg : String),
      d.isEmpty = false →
      (truthyOpt (dictGet d "image_url") && truthyOpt (dictGet d "animal") &&
       truthyOpt (dictGet d "confidence") && truthyOpt (dictGet d "user_id")) = true →
      (pyFloat ((dictGet d "confidence").getD .null) = .error msg →
        (save_history (some d) env).1 = errResp msg 500) ∧
      (∀ c : ℚ, pyFloat ((dictGet d "confidence").getD .null) = .ok c →
        env.insertError = some msg →
        (save_history (some d) env).1 = errResp msg 500)) ∧
    (∀ (ts : ℕ) (files : List (String × UploadedFile)) (f : UploadedFile)
       (form : List (String × String)) (env : StorageEnv) (msg : String),
      files.lookup "image" = some f →
      (truthyStrOpt (form.lookup "animal") && truthyStrOpt (form.lookup "confidence") &&
       truthyStrOpt (form.lookup "user_id")) = true →
      (env.uploadError = some msg →
        (save_detection ts files form env).1 = errResp msg 500) ∧
      (env.uploadError = none →
        pyFloat (.str ((form.lookup "confidence").getD "")) = .error msg →
        (save_detection ts files form env).1 = errResp msg 500) ∧
      (∀ c : ℚ, env.uploadError = none →
        pyFloat (.str ((form.lookup "confidence").getD "")) = .ok c →
        env.insertError = some msg →
        (save_detection ts files form env).1 = errResp msg 500)) := by
  refine ⟨?_, ?_, ?_, ?_, ?_, ?_, ?_⟩
  · intro files m h
    cases m <;> simp [predict, h]
  · intro env
    simp [save_history]
  · intro ts files form env h
    simp [save_detection, h]
  · intro files f msg h
    exact ⟨by simp [predict, h], by simp [predict, h]⟩
  · intro files f body msg h hf
    simp [predict, h, hf]
  · intro d env msg hd ht
    constructor
    · intro hf
      simp [save_history, hd, ht, hf]
    · intro c hf hins
      simp [save_history, hd, ht, hf, hins]
  · intro ts files f form env msg himg ht
    refine ⟨?_, ?_, ?_⟩
    · intro hup
      simp [save_detection, himg, ht, hup]
    · intro hup hf
      simp [save_detection, himg, ht, hup, hf]
    · intro c hup hf hins
      simp [save_detection, himg, ht, hup, hf, hins]

/-- C7 (witness): concrete instances — a request without an image gets
400; a model-call failure surfaces its message with 500; an insert
failure in /save-history surfaces its message with 500. -/
theorem c7_witness :
    (predict [] (.ok [])).1 = errResp "No image uploaded" 400 ∧
    (predict [("image", ⟨"z.jpg", [8], "image/png"⟩)] (.httpError "boom")).1 =
      errResp "boom" 500 ∧
    (save_history (some [("image_url", PyVal.str "http://x"),
        ("animal", PyVal.str "dog"), ("confidence", PyVal.str "2"),
        ("user_id", PyVal.str "u")]) ⟨none, "p", some "db down"⟩).1 =
      errResp "db down" 500 :=
  ⟨c7_error_mapping.1 [] (.ok []) (by rfl),
   (c7_error_mapping.2.2.2.1 [("image", ⟨"z.jpg", [8], "image/png"⟩)]
      ⟨"z.jpg", [8], "image/png"⟩ "boom" (by rfl)).1,
   (c7_error_mapping.2.2.2.2.2.1 [("image_url", PyVal.str "http://x"),
        ("animal", PyVal.str "dog"), ("confidence", PyVal.str "2"),
        ("user_id", PyVal.str "u")] ⟨none, "p", some "db down"⟩ "db down"
      (by rfl) (by decide)).2 2 (by rfl) (by rfl)⟩
